import Mathlib

/-!
Verification development for the report-generation pipeline of the
ai-fin-report-generator backend.  The Python sources `ai_service.py` and
`pdf_generator.py` are shallowly embedded below: JSON values become an
inductive `Json` type, Python dict operations become operations on
association lists, and every Python operation that can raise is modelled
in the `Except PyError` monad.  Numeric values are modelled as exact
rationals (`Rat`); the Python float format specifiers are modelled by the
corresponding exact-rational renderings.
-/

/-- A JSON value, as produced by `json.loads` in `ai_service.py`.
Objects are association lists in insertion order, matching Python dicts. -/
inductive Json where
  | null
  | bool (b : Bool)
  | num (q : Rat)
  | str (s : String)
  | arr (elems : List Json)
  | obj (kvs : List (String × Json))

/-- The Python exceptions the embedded code can raise. -/
inductive PyError where
  | typeError
  | attributeError
  | keyError
  | valueError
  | zeroDivisionError
  | providerError
deriving DecidableEq, Repr

/-- Python dict lookup (first binding wins; dicts built by `json.loads`
have no duplicate keys, so this is exact). -/
def lookupKey : List (String × Json) → String → Option Json
  | [], _ => none
  | (k, v) :: rest, key => if k = key then some v else lookupKey rest key

/-- Python `key in dict` membership test. -/
def containsKey : List (String × Json) → String → Bool
  | [], _ => false
  | (k, _) :: rest, key => if k = key then true else containsKey rest key

/-- Python dict item assignment `d[key] = v`: replaces the value of an
existing binding in place, otherwise appends a new binding at the end. -/
def setKey : List (String × Json) → String → Json → List (String × Json)
  | [], key, v => [(key, v)]
  | (k, w) :: rest, key, v =>
    if k = key then (k, v) :: rest else (k, w) :: setKey rest key v

/-- Whether a `Json` value is an object (a Python dict). -/
def Json.isObj : Json → Bool
  | .obj _ => true
  | _ => false

/-- Whether a `Json` value is a bare string. -/
def Json.isStr : Json → Bool
  | .str _ => true
  | _ => false

/-- Whether a `Json` value is an array (a Python list). -/
def Json.isArr : Json → Bool
  | .arr _ => true
  | _ => false

/-- Lookup of a key on a `Json` value known to be an object;
on non-objects it returns `none` (used only to state properties). -/
def Json.getKey : Json → String → Option Json
  | .obj kvs, key => lookupKey kvs key
  | _, _ => none

/-- `charsStartWith pat s` : the character list `s` starts with `pat`. -/
def charsStartWith : List Char → List Char → Bool
  | [], _ => true
  | _ :: _, [] => false
  | p :: ps, c :: cs => p == c && charsStartWith ps cs

/-- `charsContain s pat` : `pat` occurs as a contiguous run inside `s`
(the semantics of Python `pat in s` for strings). -/
def charsContain : List Char → List Char → Bool
  | [], pat => pat.isEmpty
  | c :: rest, pat => charsStartWith pat (c :: rest) || charsContain rest pat

/-- Python substring test `pat in s`. -/
def strContains (s pat : String) : Bool :=
  charsContain s.toList pat.toList

/-- Python `field in x` for an arbitrary object `x`: key membership for
dicts, element equality for lists (a string equals only an equal string),
substring test for strings, and a `TypeError` for every other JSON value. -/
def pyIn (field : String) (j : Json) : Except PyError Bool :=
  match j with
  | .obj kvs => .ok (containsKey kvs field)
  | .arr xs =>
    .ok (xs.any (fun x => match x with | .str s => s == field | _ => false))
  | .str s => .ok (strContains s field)
  | _ => .error .typeError

/-- Python item assignment `x[field] = v`: succeeds on dicts and raises
`TypeError` on every other JSON value (the `ai_service` code only ever
assigns string subscripts). -/
def pySetItem (j : Json) (field : String) (v : Json) : Except PyError Json :=
  match j with
  | .obj kvs => .ok (.obj (setKey kvs field v))
  | _ => .error .typeError

/-- Python `x.get(field)`: dict lookup on dicts, and an `AttributeError`
on every other JSON value (lists, strings, numbers have no `get`). -/
def pyDictGet (j : Json) (field : String) : Except PyError (Option Json) :=
  match j with
  | .obj kvs => .ok (lookupKey kvs field)
  | _ => .error .attributeError

/-- Kernel of Python `str.title`: an alphabetic character that follows a
non-alphabetic one is uppercased, any other alphabetic character is
lowercased, other characters pass through (exact for the ASCII field
names used here). -/
def titleCaseGo : Bool → List Char → List Char
  | _, [] => []
  | prevAlpha, c :: cs =>
    if c.isAlpha then
      (if prevAlpha then c.toLower else c.toUpper) :: titleCaseGo true cs
    else
      c :: titleCaseGo false cs

/-- Python `s.title()`. -/
def pyTitle (s : String) : String :=
  ⟨titleCaseGo false s.toList⟩

/-- Python `s.replace("_", " ")` for the field names. -/
def underscoreToSpace (s : String) : String :=
  ⟨s.toList.map (fun c => if c == '_' then ' ' else c)⟩

/-- The placeholder string `f"Analysis for ... not available."` that
`generate_financial_report` assigns to a missing required field. -/
def placeholder (field : String) : String :=
  "Analysis for " ++ pyTitle (underscoreToSpace field) ++ " not available."

/-- The `required_fields` list of `generate_financial_report`. -/
def required_fields : List String :=
  ["executive_summary", "key_trends", "risks", "recommendations",
   "top_risks", "top_recommendations"]

/-- The `for field in required_fields` placeholder-filling loop of
`generate_financial_report`, over an arbitrary field list:
`if field not in ai_content: ai_content[field] = placeholder`. -/
def ensureFieldsFrom (fields : List String) (j : Json) : Except PyError Json :=
  match fields with
  | [] => .ok j
  | f :: fs => do
    let b ← pyIn f j
    let j2 ← if b then pure j else pySetItem j f (.str (placeholder f))
    ensureFieldsFrom fs j2

/-- One normalization step of `generate_financial_report`:
`if isinstance(ai_content.get(f), str): ai_content[f] = [ai_content[f]]`. -/
def normalizeListField (j : Json) (field : String) : Except PyError Json := do
  let v ← pyDictGet j field
  match v with
  | some (.str s) => pySetItem j field (.arr [.str s])
  | _ => pure j

/-- The whole post-parse body of `generate_financial_report`: placeholder
filling for the six required fields, then list normalization of
`top_risks` and `top_recommendations`. -/
def processAiContent (j : Json) : Except PyError Json := do
  let a ← ensureFieldsFrom required_fields j
  let b ← normalizeListField a "top_risks"
  normalizeListField b "top_recommendations"

/-- Pure image of the placeholder-filling loop on a dict. -/
def fillFrom (fields : List String) (kvs : List (String × Json)) :
    List (String × Json) :=
  match fields with
  | [] => kvs
  | f :: fs =>
    fillFrom fs
      (if containsKey kvs f then kvs else setKey kvs f (.str (placeholder f)))

/-- Pure image of one list-normalization step on a dict. -/
def normListPure (kvs : List (String × Json)) (field : String) :
    List (String × Json) :=
  match lookupKey kvs field with
  | some (.str s) => setKey kvs field (.arr [.str s])
  | _ => kvs

/-- The caller-supplied financial facts (`CompanyData` in `app.py`),
with exact rationals in place of Python floats. -/
structure FinancialFacts where
  company_name : String
  revenue : Rat
  profit : Rat
  growth_percentage : Rat
  sector_trends : String
  key_metrics : String
  risks : String
  recommendations : String

/-- Round a rational to the nearest integer, halves away from zero
upward: the floor of `q + 1/2`, computed by integer floor division
(models the rounding of the Python fixed-point format specifiers; no
claim depends on the tie-breaking direction). -/
def ratRound (q : Rat) : Int :=
  Int.fdiv (2 * q.num + (q.den : Int)) (2 * (q.den : Int))

/-- Insert thousands separators: groups of three, consumed from the
front of an already reversed digit list. -/
def commaRev : List Char → List Char
  | a :: b :: c :: rest =>
    if rest.isEmpty then [a, b, c] else a :: b :: c :: ',' :: commaRev rest
  | l => l

/-- Decimal rendering of a natural number with thousands separators. -/
def withCommas (n : Nat) : String :=
  ⟨(commaRev (toString n).toList.reverse).reverse⟩

/-- Two-digit zero-padded rendering of `n < 100`. -/
def pad2 (n : Nat) : String :=
  if n < 10 then "0" ++ toString n else toString n

/-- The Python format specifier `:,.2f` over exact rationals: sign,
thousands-separated integer part, and exactly two decimals. -/
def formatComma2 (q : Rat) : String :=
  let scaled : Int := ratRound (q * 100)
  let sign := if scaled < 0 then "-" else ""
  let a := scaled.natAbs
  sign ++ withCommas (a / 100) ++ "." ++ pad2 (a % 100)

/-- The Python format specifier `:.1f` over exact rationals. -/
def format1 (q : Rat) : String :=
  let scaled : Int := ratRound (q * 10)
  let sign := if scaled < 0 then "-" else ""
  let a := scaled.natAbs
  sign ++ toString (a / 10) ++ "." ++ toString (a % 10)

/-- Plain rendering of a rational, modelling Python `str` on the number
(integers render without a denominator). -/
def ratStr (q : Rat) : String :=
  if q.den = 1 then toString q.num else toString q.num ++ "/" ++ toString q.den

/-- Python default string strip: drop leading and trailing whitespace. -/
def isPySpace (c : Char) : Bool :=
  c == ' ' || c == '\n' || c == '\t' || c == '\r' || c == '\x0b' || c == '\x0c'

/-- Python `s.strip()`. -/
def pyStrip (s : String) : String :=
  ⟨((s.toList.dropWhile isPySpace).reverse.dropWhile isPySpace).reverse⟩

/-- The `executive_summary` template of `generate_demo_report`
(triple-quoted f-string followed by `.strip()`). -/
def execSummaryText (d : FinancialFacts) (profit_margin : Rat) : String :=
  pyStrip ("\n        " ++ d.company_name ++
    " demonstrates solid financial performance with revenue of ₹" ++
    formatComma2 d.revenue ++ " \n        and profit of ₹" ++
    formatComma2 d.profit ++ ", resulting in a profit margin of " ++
    format1 profit_margin ++ "%. \n        The company shows " ++
    ratStr d.growth_percentage ++
    "% growth, indicating positive market momentum. \n        \n        " ++
    "Key sector trends and strategic positioning require attention to maintain competitive advantage. \n        " ++
    "Management should focus on optimizing operational efficiency while addressing identified risks \n        " ++
    "to ensure sustainable growth trajectory.\n        ")

/-- The `key_trends` template of `generate_demo_report`. -/
def keyTrendsText (d : FinancialFacts) (profit_margin : Rat) : String :=
  pyStrip ("\n        Current market analysis reveals " ++
    ratStr d.growth_percentage ++
    "% growth rate, which positions \n        " ++ d.company_name ++
    " favorably within the sector. Sector trends indicate: " ++
    d.sector_trends ++
    "\n        \n        Key performance metrics show: " ++ d.key_metrics ++
    "\n        \n        The financial fundamentals demonstrate stability with current profit margins at " ++
    format1 profit_margin ++
    "%. \n        Revenue diversification and market expansion opportunities should be evaluated to strengthen \n        " ++
    "the company\x27s competitive position.\n        ")

/-- The `risks` template of `generate_demo_report`. -/
def risksText (d : FinancialFacts) : String :=
  pyStrip ("\n        Primary risk factors identified include: " ++ d.risks ++
    "\n        \n        Financial risk assessment indicates potential vulnerabilities in market volatility exposure. \n        " ++
    "Operational risks related to supply chain dependencies and competitive pressures require \n        " ++
    "proactive management strategies.\n        \n        " ++
    "Regulatory changes and economic uncertainties pose additional challenges that could impact \n        " ++
    "future performance if not adequately addressed through strategic planning.\n        ")

/-- The `recommendations` template of `generate_demo_report`. -/
def recommendationsText (d : FinancialFacts) : String :=
  pyStrip ("\n        Strategic recommendations for " ++ d.company_name ++
    ": " ++ d.recommendations ++
    "\n        \n        1. Implement enhanced financial controls and monitoring systems\n        " ++
    "2. Diversify revenue streams to reduce market concentration risk\n        " ++
    "3. Invest in technology infrastructure to improve operational efficiency\n        " ++
    "4. Develop comprehensive risk management framework\n        " ++
    "5. Strengthen market position through strategic partnerships\n        \n        " ++
    "These initiatives should be prioritized based on resource availability and strategic impact.\n        ")

/-- The dict literal that `generate_demo_report` returns, as a function
of the facts and the already computed `profit_margin`. -/
def demoContent (d : FinancialFacts) (profit_margin : Rat) : Json :=
  .obj [
    ("executive_summary", .str (execSummaryText d profit_margin)),
    ("key_trends", .str (keyTrendsText d profit_margin)),
    ("risks", .str (risksText d)),
    ("recommendations", .str (recommendationsText d)),
    ("top_risks", .arr [
      .str "Market volatility and economic uncertainty",
      .str "Competitive pressure and market share erosion",
      .str "Operational inefficiencies and cost escalation"]),
    ("top_recommendations", .arr [
      .str "Diversify revenue streams and market presence",
      .str "Implement advanced analytics for decision making",
      .str "Strengthen operational risk management processes"])]

/-- The guarded profit-margin expression of `generate_demo_report`:
`(profit / revenue * 100) if revenue > 0 else 0`. -/
def demoMargin (d : FinancialFacts) : Rat :=
  if 0 < d.revenue then d.profit / d.revenue * 100 else 0

/-- `generate_demo_report` from `ai_service.py`. -/
def generate_demo_report (d : FinancialFacts) : Json :=
  demoContent d (demoMargin d)

/-- Python division, raising `ZeroDivisionError` on a zero denominator;
used to state that the guarded margin computation never divides by 0. -/
def pyDiv (a b : Rat) : Except PyError Rat :=
  if b = 0 then .error .zeroDivisionError else .ok (a / b)

/-- The margin computation of `generate_demo_report` with Python
division semantics made explicit. -/
def profit_margin_eval (d : FinancialFacts) : Except PyError Rat :=
  if 0 < d.revenue then do
    let q ← pyDiv d.profit d.revenue
    pure (q * 100)
  else pure 0

/-- Observable outcome of the external provider call in
`generate_financial_report`: the call raised; `response.text` was empty
or None; the text was non-empty but not valid JSON; or it parsed to a
JSON value. -/
inductive ProviderOutcome where
  | exn
  | emptyText
  | parseFailure
  | parsed (j : Json)

/-- The `try` block of `generate_financial_report`: the demo-key check,
the provider call, `json.loads(response_content) if response_content
else {}`, and the post-parse repair pipeline.  Any raise becomes an
`Except` error. -/
def reportTryBody (apiKey : String) (d : FinancialFacts)
    (resp : ProviderOutcome) : Except PyError Json :=
  if apiKey = "demo_key" then .ok (generate_demo_report d)
  else
    match resp with
    | .exn => .error .providerError
    | .emptyText => processAiContent (.obj [])
    | .parseFailure => .error .valueError
    | .parsed j => processAiContent j

/-- `generate_financial_report` from `ai_service.py`: the `try` body
with the `except Exception` handler that falls back to
`generate_demo_report`. -/
def generate_financial_report (apiKey : String) (d : FinancialFacts)
    (resp : ProviderOutcome) : Json :=
  match reportTryBody apiKey d resp with
  | .ok r => r
  | .error _ => generate_demo_report d

/-!
Embedding of `pdf_generator.py`.  The observable output of
`generate_pdf_report` is the ordered flowable list handed to
`doc.build`; we model it as a list of typed blocks.  The reportlab
styling objects and the temporary file are layout-engine collaborators
outside the embedded core.
-/

/-- One flowable appended to `content` in `generate_pdf_report`:
a title paragraph, a section heading, a body paragraph, a numbered list
entry, or a vertical spacer of the given height. -/
inductive Block where
  | title (text : String)
  | heading (text : String)
  | para (text : String)
  | listItem (text : String)
  | spacer (height : Nat)
deriving DecidableEq, Repr

mutual

/-- Python `str()` of a JSON value (strings render bare, as in
f-string interpolation). -/
def Json.pyStr : Json → String
  | .null => "None"
  | .bool b => if b then "True" else "False"
  | .num q => ratStr q
  | .str s => s
  | .arr xs => "[" ++ pyReprList xs ++ "]"
  | .obj kvs => "\x7b" ++ pyReprObj kvs ++ "\x7d"

/-- Python `repr()` of a JSON value (strings render quoted), used for
elements of containers. -/
def Json.pyRepr : Json → String
  | .null => "None"
  | .bool b => if b then "True" else "False"
  | .num q => ratStr q
  | .str s => "\x27" ++ s ++ "\x27"
  | .arr xs => "[" ++ pyReprList xs ++ "]"
  | .obj kvs => "\x7b" ++ pyReprObj kvs ++ "\x7d"

/-- Comma-separated element renderings of a Python list. -/
def pyReprList : List Json → String
  | [] => ""
  | [x] => Json.pyRepr x
  | x :: y :: rest => Json.pyRepr x ++ ", " ++ pyReprList (y :: rest)

/-- Comma-separated `key: value` renderings of a Python dict. -/
def pyReprObj : List (String × Json) → String
  | [] => ""
  | [(k, v)] => "\x27" ++ k ++ "\x27: " ++ Json.pyRepr v
  | (k, v) :: p :: rest =>
    "\x27" ++ k ++ "\x27: " ++ Json.pyRepr v ++ ", " ++ pyReprObj (p :: rest)

end

/-- Python truthiness of a JSON value. -/
def pyTruthy : Json → Bool
  | .null => false
  | .bool b => b
  | .num q => if q = 0 then false else true
  | .str s => if s = "" then false else true
  | .arr xs => !xs.isEmpty
  | .obj kvs => !kvs.isEmpty

/-- The render input: the `report_data` dict of `generate_pdf_report`. -/
def RData := List (String × Json)

/-- Python subscript `report_data[key]`: `KeyError` when absent. -/
def rget (rd : RData) (key : String) : Except PyError Json :=
  match lookupKey rd key with
  | some v => .ok v
  | none => .error .keyError

/-- Python `report_data.get(key, default)`. -/
def rgetD (rd : RData) (key : String) (dflt : Json) : Json :=
  (lookupKey rd key).getD dflt

/-- The Python format expression `f"...{v:,.2f}"`: formats numbers (and
booleans, which Python treats as 0/1), raises on every other value. -/
def pyFormatComma2 (v : Json) : Except PyError String :=
  match v with
  | .num q => .ok (formatComma2 q)
  | .bool b => .ok (formatComma2 (if b then 1 else 0))
  | _ => .error .valueError

/-- Replace every newline by an explicit line break, on characters. -/
def brNewlines : List Char → List Char
  | [] => []
  | c :: rest =>
    if c = '\n' then '<' :: 'b' :: 'r' :: '/' :: '>' :: brNewlines rest
    else c :: brNewlines rest

/-- The Python expression `report_data[k].replace('\n', '<br/>')` applied
to a value: succeeds on strings, raises `AttributeError` otherwise. -/
def pyReplaceBr (v : Json) : Except PyError String :=
  match v with
  | .str s => .ok ⟨brNewlines s.toList⟩
  | _ => .error .attributeError

/-- Title page block of `generate_pdf_report` (the raw value of
`report_data.get('report_title', 'Financial Report')` is handed to the
layout engine; we record its textual content). -/
def titleSection (rd : RData) : List Block :=
  [.title (rgetD rd "report_title" (.str "Financial Report")).pyStr,
   .spacer 20]

/-- Company info block of `generate_pdf_report`: always emitted. -/
def metadataSection (today : String) (rd : RData) : List Block :=
  [.para ("<b>Company:</b> " ++ (rgetD rd "company_name" (.str "Company")).pyStr),
   .para ("<b>Prepared for:</b> " ++ (rgetD rd "executive_name" (.str "Executive")).pyStr),
   .para ("<b>Date:</b> " ++ today),
   .spacer 30]

/-- The `Financial Overview` section: gated on the presence of the
`revenue` key alone, then subscripts `revenue`, `profit` and
`growth_percentage` directly. -/
def financialOverviewSection (rd : RData) : Except PyError (List Block) :=
  if containsKey rd "revenue" then do
    let rev ← rget rd "revenue"
    let revS ← pyFormatComma2 rev
    let prof ← rget rd "profit"
    let profS ← pyFormatComma2 prof
    let growth ← rget rd "growth_percentage"
    pure [.heading "Financial Overview",
          .para ("<b>Revenue:</b> ₹" ++ revS),
          .para ("<b>Profit:</b> ₹" ++ profS),
          .para ("<b>Growth:</b> " ++ growth.pyStr ++ "%"),
          .spacer 20]
  else pure []

/-- The `Executive Summary` section. -/
def executiveSummarySection (rd : RData) : Except PyError (List Block) :=
  if containsKey rd "executive_summary" then do
    let v ← rget rd "executive_summary"
    let t ← pyReplaceBr v
    pure [.heading "Executive Summary", .para t, .spacer 15]
  else pure []

/-- The `Key Trends Analysis` section. -/
def keyTrendsSection (rd : RData) : Except PyError (List Block) :=
  if containsKey rd "key_trends" then do
    let v ← rget rd "key_trends"
    let t ← pyReplaceBr v
    pure [.heading "Key Trends Analysis", .para t, .spacer 15]
  else pure []

/-- The 1-indexed numbered entries `f"{i}. {risk}"` over the first three
elements of a list, from `enumerate(xs[:3], 1)`. -/
def numberedItems (xs : List Json) : List Block :=
  (xs.take 3).enum.map
    (fun p => .listItem (toString (p.1 + 1) ++ ". " ++ p.2.pyStr))

/-- The `Top 3 Critical Risks` section: gated on `top_risks` being
present and truthy; lists are numbered and truncated to three entries,
any other value is rendered as a single paragraph via `str()`. -/
def topRisksSection (rd : RData) : Except PyError (List Block) :=
  if containsKey rd "top_risks" then do
    let risks ← rget rd "top_risks"
    if pyTruthy risks then
      match risks with
      | .arr xs =>
        pure ([.heading "Top 3 Critical Risks"] ++ numberedItems xs ++
          [.spacer 15])
      | v => pure [.heading "Top 3 Critical Risks", .para v.pyStr, .spacer 15]
    else pure []
  else pure []

/-- The `Risk Assessment` section. -/
def riskAssessmentSection (rd : RData) : Except PyError (List Block) :=
  if containsKey rd "risks" then do
    let v ← rget rd "risks"
    let t ← pyReplaceBr v
    pure [.heading "Risk Assessment", .para t, .spacer 15]
  else pure []

/-- The `Top 3 Priority Recommendations` section: same handling as the
risks list, over `top_recommendations`. -/
def topRecommendationsSection (rd : RData) : Except PyError (List Block) :=
  if containsKey rd "top_recommendations" then do
    let recs ← rget rd "top_recommendations"
    if pyTruthy recs then
      match recs with
      | .arr xs =>
        pure ([.heading "Top 3 Priority Recommendations"] ++
          numberedItems xs ++ [.spacer 15])
      | v =>
        pure [.heading "Top 3 Priority Recommendations", .para v.pyStr,
          .spacer 15]
    else pure []
  else pure []

/-- The final `Strategic Recommendations` section (no trailing spacer). -/
def strategicRecommendationsSection (rd : RData) : Except PyError (List Block) :=
  if containsKey rd "recommendations" then do
    let v ← rget rd "recommendations"
    let t ← pyReplaceBr v
    pure [.heading "Strategic Recommendations", .para t]
  else pure []

/-- The `content` list that `generate_pdf_report` builds and hands to
`doc.build`, assembled in source order; a raise anywhere propagates out
of `generate_pdf_report` and no document is produced.  `today` stands
for the rendering of `datetime.now()` in the metadata block. -/
def generate_pdf_report_content (today : String) (rd : RData) :
    Except PyError (List Block) := do
  let fo ← financialOverviewSection rd
  let es ← executiveSummarySection rd
  let kt ← keyTrendsSection rd
  let tr ← topRisksSection rd
  let ra ← riskAssessmentSection rd
  let tc ← topRecommendationsSection rd
  let sr ← strategicRecommendationsSection rd
  pure (titleSection rd ++ metadataSection today rd ++ fo ++ es ++ kt ++
    tr ++ ra ++ tc ++ sr)

/-!  Concrete inputs used by witnesses and counterexamples. -/

/-- A sample set of financial facts. -/
def sampleFacts : FinancialFacts :=
  ⟨"ACME Corp", 100, 10, 5, "stable demand", "strong margins", "fx exposure",
   "expand"⟩

/-- Financial facts with zero revenue. -/
def zeroRevenueFacts : FinancialFacts :=
  ⟨"ACME Corp", 0, 10, 5, "stable demand", "strong margins", "fx exposure",
   "expand"⟩

/-- The report produced from an empty provider dict: every required
field carries its placeholder, with the two list fields wrapped. -/
def placeholderReport : Json := .obj [
  ("executive_summary", .str "Analysis for Executive Summary not available."),
  ("key_trends", .str "Analysis for Key Trends not available."),
  ("risks", .str "Analysis for Risks not available."),
  ("recommendations", .str "Analysis for Recommendations not available."),
  ("top_risks", .arr [.str "Analysis for Top Risks not available."]),
  ("top_recommendations",
   .arr [.str "Analysis for Top Recommendations not available."])]

/-- A provider dict whose `top_risks` is the scalar string Inflation. -/
def inflationDict : List (String × Json) :=
  [("top_risks", Json.str "Inflation")]

/-- A provider dict with all six required fields present where
`top_risks` is the JSON number 5. -/
def numericTopRisksDict : List (String × Json) :=
  [("executive_summary", Json.str "s"), ("key_trends", Json.str "t"),
   ("risks", Json.str "r"), ("recommendations", Json.str "c"),
   ("top_risks", Json.num 5), ("top_recommendations", Json.str "Inflation")]

/-- Length of the `top_risks` array of a report, when it is an array. -/
def topRisksLength (j : Json) : Option Nat :=
  match j.getKey "top_risks" with
  | some (.arr xs) => some xs.length
  | _ => none

/-!  Association-list lemmas. -/

theorem lookupKey_eq_none (kvs : List (String × Json)) (k : String)
    (h : containsKey kvs k = false) : lookupKey kvs k = none := by
  induction kvs with
  | nil => rfl
  | cons p rest ih =>
    obtain ⟨k1, v1⟩ := p
    by_cases hk : k1 = k
    · simp [containsKey, hk] at h
    · simp [containsKey, hk] at h
      simp [lookupKey, hk, ih h]

theorem lookupKey_some_contains (kvs : List (String × Json)) (k : String)
    (v : Json) (h : lookupKey kvs k = some v) : containsKey kvs k = true := by
  induction kvs with
  | nil => simp [lookupKey] at h
  | cons p rest ih =>
    obtain ⟨k1, v1⟩ := p
    by_cases hk : k1 = k
    · simp [containsKey, hk]
    · simp [lookupKey, hk] at h
      simp [containsKey, hk, ih h]

theorem containsKey_append (kvs kvs2 : List (String × Json)) (k : String) :
    containsKey (kvs ++ kvs2) k = (containsKey kvs k || containsKey kvs2 k) := by
  induction kvs with
  | nil => simp [containsKey]
  | cons p rest ih =>
    obtain ⟨k1, v1⟩ := p
    by_cases hk : k1 = k
    · simp [containsKey, hk]
    · simp [containsKey, hk, ih]

theorem lookupKey_append_left (kvs kvs2 : List (String × Json)) (k : String)
    (v : Json) (h : lookupKey kvs k = some v) :
    lookupKey (kvs ++ kvs2) k = some v := by
  induction kvs with
  | nil => simp [lookupKey] at h
  | cons p rest ih =>
    obtain ⟨k1, v1⟩ := p
    by_cases hk : k1 = k
    · simp [lookupKey, hk] at h ⊢; exact h
    · simp [lookupKey, hk] at h ⊢; exact ih h

theorem lookupKey_append_right (kvs kvs2 : List (String × Json)) (k : String)
    (h : containsKey kvs k = false) :
    lookupKey (kvs ++ kvs2) k = lookupKey kvs2 k := by
  induction kvs with
  | nil => rfl
  | cons p rest ih =>
    obtain ⟨k1, v1⟩ := p
    by_cases hk : k1 = k
    · simp [containsKey, hk] at h
    · simp [containsKey, hk] at h
      simp [lookupKey, hk, ih h]

theorem setKey_of_not_contains (kvs : List (String × Json)) (k : String)
    (v : Json) (h : containsKey kvs k = false) :
    setKey kvs k v = kvs ++ [(k, v)] := by
  induction kvs with
  | nil => rfl
  | cons p rest ih =>
    obtain ⟨k1, v1⟩ := p
    by_cases hk : k1 = k
    · simp [containsKey, hk] at h
    · simp [containsKey, hk] at h
      simp [setKey, hk, ih h]

theorem lookupKey_setKey_self (kvs : List (String × Json)) (k : String)
    (v : Json) : lookupKey (setKey kvs k v) k = some v := by
  induction kvs with
  | nil => simp [setKey, lookupKey]
  | cons p rest ih =>
    obtain ⟨k1, v1⟩ := p
    by_cases hk : k1 = k
    · simp [setKey, hk, lookupKey]
    · simp [setKey, hk, lookupKey, ih]

theorem lookupKey_setKey_ne (kvs : List (String × Json)) (k k2 : String)
    (v : Json) (h : k2 ≠ k) :
    lookupKey (setKey kvs k v) k2 = lookupKey kvs k2 := by
  induction kvs with
  | nil => simp [setKey, lookupKey, Ne.symm h]
  | cons p rest ih =>
    obtain ⟨k1, v1⟩ := p
    by_cases hk : k1 = k
    · subst hk
      simp [setKey, lookupKey, Ne.symm h]
    · simp [setKey, hk, lookupKey, ih]

/-!  Behaviour of the repair pipeline on dicts. -/

theorem ensureFieldsFrom_obj (fields : List String) :
    ∀ kvs, ensureFieldsFrom fields (.obj kvs) = .ok (.obj (fillFrom fields kvs)) := by
  induction fields with
  | nil => intro kvs; rfl
  | cons f fs ih =>
    intro kvs
    by_cases h : containsKey kvs f
    · simp [ensureFieldsFrom, fillFrom, pyIn, h, ih, Bind.bind, Except.bind,
        Pure.pure, Except.pure]
    · simp [ensureFieldsFrom, fillFrom, pyIn, pySetItem, h, ih, Bind.bind,
        Except.bind, Pure.pure, Except.pure]

theorem lookupKey_fillFrom_of_some (fields : List String) :
    ∀ kvs k v, lookupKey kvs k = some v →
      lookupKey (fillFrom fields kvs) k = some v := by
  induction fields with
  | nil => intro kvs k v h; exact h
  | cons f fs ih =>
    intro kvs k v h
    by_cases hc : containsKey kvs f
    · simp only [fillFrom, hc, if_true]
      exact ih kvs k v h
    · simp only [fillFrom, hc, if_false, Bool.false_eq_true]
      rw [setKey_of_not_contains kvs f _ (by simpa using hc)]
      exact ih _ k v (lookupKey_append_left kvs _ k v h)

theorem lookupKey_fillFrom_mem (fields : List String) :
    ∀ kvs f, f ∈ fields → containsKey kvs f = false →
      lookupKey (fillFrom fields kvs) f = some (.str (placeholder f)) := by
  induction fields with
  | nil => intro kvs f hmem; exact absurd hmem (List.not_mem_nil f)
  | cons g gs ih =>
    intro kvs f hmem h
    by_cases hfg : f = g
    · subst hfg
      simp only [fillFrom, h, if_false, Bool.false_eq_true]
      rw [setKey_of_not_contains kvs f _ h]
      refine lookupKey_fillFrom_of_some gs _ f _ ?_
      rw [lookupKey_append_right kvs _ f h]
      simp [lookupKey]
    · have hmem2 : f ∈ gs := by
        rcases List.mem_cons.mp hmem with h1 | h1
        · exact absurd h1 hfg
        · exact h1
      by_cases hc : containsKey kvs g
      · simp only [fillFrom, hc, if_true]
        exact ih kvs f hmem2 h
      · simp only [fillFrom, hc, if_false, Bool.false_eq_true]
        refine ih _ f hmem2 ?_
        rw [setKey_of_not_contains kvs g _ (by simpa using hc),
          containsKey_append, h]
        simp [containsKey, Ne.symm hfg]

theorem normalizeListField_obj (kvs : List (String × Json)) (f : String) :
    normalizeListField (.obj kvs) f = .ok (.obj (normListPure kvs f)) := by
  simp only [normalizeListField, normListPure, pyDictGet, pySetItem,
    Bind.bind, Except.bind]
  cases h : lookupKey kvs f with
  | none => simp [h, Pure.pure, Except.pure]
  | some v => cases v <;> simp [h, Pure.pure, Except.pure]

theorem lookupKey_normListPure_ne (kvs : List (String × Json)) (f g : String)
    (h : g ≠ f) : lookupKey (normListPure kvs f) g = lookupKey kvs g := by
  unfold normListPure
  cases hv : lookupKey kvs f with
  | none => rfl
  | some v =>
    cases v with
    | str s => exact lookupKey_setKey_ne kvs f g _ h
    | null => rfl
    | bool b => rfl
    | num q => rfl
    | arr xs => rfl
    | obj kvs2 => rfl

theorem lookupKey_normListPure_not_str (kvs : List (String × Json))
    (f : String) (v : Json) (h : lookupKey (normListPure kvs f) f = some v) :
    v.isStr = false := by
  unfold normListPure at h
  cases hv : lookupKey kvs f with
  | none => rw [hv] at h; rw [hv] at h; exact absurd h (by simp)
  | some w =>
    cases w with
    | str s =>
      rw [hv] at h
      rw [lookupKey_setKey_self] at h
      cases h; rfl
    | null => rw [hv] at h; rw [hv] at h; cases h; rfl
    | bool b => rw [hv] at h; rw [hv] at h; cases h; rfl
    | num q => rw [hv] at h; rw [hv] at h; cases h; rfl
    | arr xs => rw [hv] at h; rw [hv] at h; cases h; rfl
    | obj kvs2 => rw [hv] at h; rw [hv] at h; cases h; rfl

theorem lookupKey_normListPure_of_str (kvs : List (String × Json))
    (f : String) (s : String) (h : lookupKey kvs f = some (.str s)) :
    lookupKey (normListPure kvs f) f = some (.arr [.str s]) := by
  unfold normListPure
  rw [h]
  exact lookupKey_setKey_self kvs f _

theorem processAiContent_obj (kvs : List (String × Json)) :
    processAiContent (.obj kvs) =
      .ok (.obj (normListPure (normListPure (fillFrom required_fields kvs)
        "top_risks") "top_recommendations")) := by
  simp only [processAiContent, Bind.bind, Except.bind, ensureFieldsFrom_obj,
    normalizeListField_obj]

/-!  Behaviour of the repair pipeline on non-dict JSON values. -/

theorem ensureFieldsFrom_nonObj (fields : List String) :
    ∀ j : Json, j.isObj = false →
      ensureFieldsFrom fields j = .ok j ∨
        ∃ e, ensureFieldsFrom fields j = .error e := by
  induction fields with
  | nil => intro j _; left; rfl
  | cons f fs ih =>
    intro j h
    cases j with
    | obj kvs => simp [Json.isObj] at h
    | null => right; exact ⟨.typeError, rfl⟩
    | bool b => right; exact ⟨.typeError, rfl⟩
    | num q => right; exact ⟨.typeError, rfl⟩
    | str s =>
      by_cases hb : strContains s f
      · have := ih (.str s) rfl
        simpa [ensureFieldsFrom, pyIn, hb, Bind.bind, Except.bind, Pure.pure,
          Except.pure] using this
      · right
        refine ⟨.typeError, ?_⟩
        simp [ensureFieldsFrom, pyIn, hb, pySetItem, Bind.bind, Except.bind]
    | arr xs =>
      by_cases hb : xs.any (fun x => match x with | .str s => s == f | _ => false)
      · have := ih (.arr xs) rfl
        simpa [ensureFieldsFrom, pyIn, hb, Bind.bind, Except.bind, Pure.pure,
          Except.pure] using this
      · right
        refine ⟨.typeError, ?_⟩
        simp [ensureFieldsFrom, pyIn, hb, pySetItem, Bind.bind, Except.bind]

theorem processAiContent_nonObj (j : Json) (h : j.isObj = false) :
    ∃ e, processAiContent j = .error e := by
  rcases ensureFieldsFrom_nonObj required_fields j h with h1 | ⟨e, h1⟩
  · refine ⟨.attributeError, ?_⟩
    cases j with
    | obj kvs => simp [Json.isObj] at h
    | null =>
      simp [processAiContent, h1, normalizeListField, pyDictGet, Bind.bind,
        Except.bind]
    | bool b =>
      simp [processAiContent, h1, normalizeListField, pyDictGet, Bind.bind,
        Except.bind]
    | num q =>
      simp [processAiContent, h1, normalizeListField, pyDictGet, Bind.bind,
        Except.bind]
    | str s =>
      simp [processAiContent, h1, normalizeListField, pyDictGet, Bind.bind,
        Except.bind]
    | arr xs =>
      simp [processAiContent, h1, normalizeListField, pyDictGet, Bind.bind,
        Except.bind]
  · exact ⟨e, by simp [processAiContent, h1, Bind.bind, Except.bind]⟩

/-- Every run of `generate_financial_report` returns either the whole
fallback report or a repaired provider dict: AI content and fallback
content are never mixed. -/
theorem generate_financial_report_shape (key : String) (d : FinancialFacts)
    (o : ProviderOutcome) :
    generate_financial_report key d o = generate_demo_report d ∨
      ∃ kvs, generate_financial_report key d o =
        .obj (normListPure (normListPure (fillFrom required_fields kvs)
          "top_risks") "top_recommendations") := by
  by_cases hk : key = "demo_key"
  · left; simp [generate_financial_report, reportTryBody, hk]
  · cases o with
    | exn => left; simp [generate_financial_report, reportTryBody, hk]
    | parseFailure =>
      left; simp [generate_financial_report, reportTryBody, hk]
    | emptyText =>
      right
      refine ⟨[], ?_⟩
      simp [generate_financial_report, reportTryBody, hk, processAiContent_obj]
    | parsed j =>
      cases j with
      | obj kvs =>
        right
        refine ⟨kvs, ?_⟩
        simp [generate_financial_report, reportTryBody, hk, processAiContent_obj]
      | null =>
        obtain ⟨e, he⟩ := processAiContent_nonObj .null rfl
        left; simp [generate_financial_report, reportTryBody, hk, he]
      | bool b =>
        obtain ⟨e, he⟩ := processAiContent_nonObj (.bool b) rfl
        left; simp [generate_financial_report, reportTryBody, hk, he]
      | num q =>
        obtain ⟨e, he⟩ := processAiContent_nonObj (.num q) rfl
        left; simp [generate_financial_report, reportTryBody, hk, he]
      | str s =>
        obtain ⟨e, he⟩ := processAiContent_nonObj (.str s) rfl
        left; simp [generate_financial_report, reportTryBody, hk, he]
      | arr xs =>
        obtain ⟨e, he⟩ := processAiContent_nonObj (.arr xs) rfl
        left; simp [generate_financial_report, reportTryBody, hk, he]

/-- The fixed `top_risks` list of the fallback report. -/
theorem demo_getKey_topRisks (d : FinancialFacts) :
    (generate_demo_report d).getKey "top_risks" = some (.arr [
      .str "Market volatility and economic uncertainty",
      .str "Competitive pressure and market share erosion",
      .str "Operational inefficiencies and cost escalation"]) := rfl

/-- The fixed `top_recommendations` list of the fallback report. -/
theorem demo_getKey_topRecs (d : FinancialFacts) :
    (generate_demo_report d).getKey "top_recommendations" = some (.arr [
      .str "Diversify revenue streams and market presence",
      .str "Implement advanced analytics for decision making",
      .str "Strengthen operational risk management processes"]) := rfl

theorem report_topRisks_not_str (key : String) (d : FinancialFacts)
    (o : ProviderOutcome) (v : Json)
    (h : (generate_financial_report key d o).getKey "top_risks" = some v) :
    v.isStr = false := by
  rcases generate_financial_report_shape key d o with hs | ⟨kvs, hs⟩
  · rw [hs, demo_getKey_topRisks] at h
    cases h; rfl
  · rw [hs] at h
    simp only [Json.getKey] at h
    rw [lookupKey_normListPure_ne _ _ _ (by decide)] at h
    exact lookupKey_normListPure_not_str _ _ _ h

theorem report_topRecs_not_str (key : String) (d : FinancialFacts)
    (o : ProviderOutcome) (v : Json)
    (h : (generate_financial_report key d o).getKey "top_recommendations" =
      some v) : v.isStr = false := by
  rcases generate_financial_report_shape key d o with hs | ⟨kvs, hs⟩
  · rw [hs, demo_getKey_topRecs] at h
    cases h; rfl
  · rw [hs] at h
    simp only [Json.getKey] at h
    exact lookupKey_normListPure_not_str _ _ _ h

theorem lookupKey_isSome_of_contains (kvs : List (String × Json)) (k : String)
    (h : containsKey kvs k = true) : (lookupKey kvs k).isSome := by
  induction kvs with
  | nil => simp [containsKey] at h
  | cons p rest ih =>
    obtain ⟨k1, v1⟩ := p
    by_cases hk : k1 = k
    · simp [lookupKey, hk]
    · simp [containsKey, hk] at h
      simp [lookupKey, hk, ih h]

/-!  The claims. -/

/-- Claim C1: `generate_financial_report` never fails — every raise in
its `try` body, in particular a raising provider call, is absorbed by
the `except` handler, and the returned report is then exactly
`generate_demo_report` applied to the same facts. -/
theorem claim_C1_provider_error_falls_back (key : String)
    (d : FinancialFacts) :
    (∀ (o : ProviderOutcome) (e : PyError), reportTryBody key d o = .error e →
      generate_financial_report key d o = generate_demo_report d) ∧
    generate_financial_report key d .exn = generate_demo_report d := by
  constructor
  · intro o e h
    simp [generate_financial_report, h]
  · by_cases hk : key = "demo_key"
    · simp [generate_financial_report, reportTryBody, hk]
    · simp [generate_financial_report, reportTryBody, hk]

/-- Witness for C1 at concrete inputs: a raising provider call yields
the fallback report. -/
theorem claim_C1_witness :
    generate_financial_report "k" sampleFacts .exn =
      generate_demo_report sampleFacts :=
  (claim_C1_provider_error_falls_back "k" sampleFacts).1 .exn .providerError rfl

/-- Claim C2, counterexample: on an empty provider response the code
builds `ai_content = {}` and placeholder-fills it rather than raising,
so the result is not the fallback report. -/
theorem claim_C2_counterexample :
    generate_financial_report "k" sampleFacts .emptyText ≠
      generate_demo_report sampleFacts := by
  intro h
  have h2 : topRisksLength (generate_financial_report "k" sampleFacts .emptyText) =
      topRisksLength (generate_demo_report sampleFacts) := by rw [h]
  have e1 : topRisksLength (generate_financial_report "k" sampleFacts .emptyText) =
      some 1 := rfl
  have e2 : topRisksLength (generate_demo_report sampleFacts) = some 3 := rfl
  rw [e1, e2] at h2
  exact absurd h2 (by decide)

/-- Claim C2, amended: an empty provider response body is treated as an
empty JSON object, not as an error — the result is the all-placeholder
report (every required field filled with its placeholder, the two list
fields wrapped into one-element sequences), not the fallback report. -/
theorem claim_C2_empty_response_placeholder (key : String)
    (d : FinancialFacts) (hk : key ≠ "demo_key") :
    generate_financial_report key d .emptyText = placeholderReport := by
  simp only [generate_financial_report, reportTryBody]
  rw [if_neg hk]
  rfl

/-- Witness for the amended C2 at concrete inputs. -/
theorem claim_C2_witness :
    generate_financial_report "k" sampleFacts .emptyText = placeholderReport :=
  claim_C2_empty_response_placeholder "k" sampleFacts (by decide)

/-- Claim C3, counterexample: a provider dict whose `top_risks` is the
JSON number 5 passes through unchanged — the returned field is neither
a sequence nor a string, refuting the claim that the fields are always
sequences. -/
theorem claim_C3_counterexample :
    (generate_financial_report "k" sampleFacts
        (.parsed (.obj numericTopRisksDict))).getKey "top_risks" =
      some (Json.num 5) ∧
    (Json.num 5).isArr = false ∧ (Json.num 5).isStr = false :=
  ⟨rfl, rfl, rfl⟩

/-- Claim C3, amended: the `top_risks` and `top_recommendations` fields
of any report returned by `generate_financial_report` are never bare
strings — a scalar string such as Inflation is normalized to the
one-element sequence — and `generate_demo_report` always carries fixed
sequences; but non-string, non-sequence provider values (numbers,
booleans, null, objects) pass through unchanged, so the fields are not
always sequences. -/
theorem claim_C3_top_fields_never_bare_strings (key : String)
    (d : FinancialFacts) (o : ProviderOutcome) :
    (∀ v, (generate_financial_report key d o).getKey "top_risks" = some v →
      v.isStr = false) ∧
    (∀ v, (generate_financial_report key d o).getKey "top_recommendations" =
      some v → v.isStr = false) ∧
    ((generate_demo_report d).getKey "top_risks" = some (.arr [
      .str "Market volatility and economic uncertainty",
      .str "Competitive pressure and market share erosion",
      .str "Operational inefficiencies and cost escalation"])) ∧
    ((generate_demo_report d).getKey "top_recommendations" = some (.arr [
      .str "Diversify revenue streams and market presence",
      .str "Implement advanced analytics for decision making",
      .str "Strengthen operational risk management processes"])) ∧
    (∀ kvs : List (String × Json), key ≠ "demo_key" →
      lookupKey kvs "top_risks" = some (.str "Inflation") →
      (generate_financial_report key d (.parsed (.obj kvs))).getKey
        "top_risks" = some (.arr [.str "Inflation"])) := by
  refine ⟨report_topRisks_not_str key d o, report_topRecs_not_str key d o,
    demo_getKey_topRisks d, demo_getKey_topRecs d, ?_⟩
  intro kvs hk h
  simp [generate_financial_report, reportTryBody, hk, processAiContent_obj,
    Json.getKey]
  rw [lookupKey_normListPure_ne _ _ _ (by decide)]
  exact lookupKey_normListPure_of_str _ _ _
    (lookupKey_fillFrom_of_some required_fields kvs "top_risks" _ h)

/-- Witness for the amended C3 at concrete inputs. -/
theorem claim_C3_witness :
    ((Json.arr [
      .str "Market volatility and economic uncertainty",
      .str "Competitive pressure and market share erosion",
      .str "Operational inefficiencies and cost escalation"]).isStr = false) ∧
    ((generate_financial_report "k" sampleFacts
        (.parsed (.obj inflationDict))).getKey "top_risks" =
      some (.arr [.str "Inflation"])) :=
  ⟨(claim_C3_top_fields_never_bare_strings "k" sampleFacts .exn).1 _ rfl,
   (claim_C3_top_fields_never_bare_strings "k" sampleFacts .exn).2.2.2.2
     inflationDict (by decide) rfl⟩

/-- Claim C4: on a provider dict, every absent required field is filled
with the placeholder string Analysis for Field Title not available,
with the field name humanized by the underscore-to-space replacement
and title casing; a dict omitting `risks` yields that exact placeholder
in the final report. -/
theorem claim_C4_placeholder_filling (kvs : List (String × Json)) :
    (ensureFieldsFrom required_fields (.obj kvs) =
      .ok (.obj (fillFrom required_fields kvs))) ∧
    (∀ f, f ∈ required_fields → containsKey kvs f = false →
      lookupKey (fillFrom required_fields kvs) f =
        some (.str (placeholder f))) ∧
    (∀ (key : String) (d : FinancialFacts), key ≠ "demo_key" →
      containsKey kvs "risks" = false →
      (generate_financial_report key d (.parsed (.obj kvs))).getKey "risks" =
        some (.str "Analysis for Risks not available.")) ∧
    (placeholder "executive_summary" =
        "Analysis for Executive Summary not available." ∧
      placeholder "key_trends" = "Analysis for Key Trends not available." ∧
      placeholder "risks" = "Analysis for Risks not available." ∧
      placeholder "recommendations" =
        "Analysis for Recommendations not available." ∧
      placeholder "top_risks" = "Analysis for Top Risks not available." ∧
      placeholder "top_recommendations" =
        "Analysis for Top Recommendations not available.") := by
  refine ⟨ensureFieldsFrom_obj required_fields kvs,
    fun f hf hc => lookupKey_fillFrom_mem required_fields kvs f hf hc,
    ?_, rfl, rfl, rfl, rfl, rfl, rfl⟩
  intro key d hk hc
  simp [generate_financial_report, reportTryBody, hk, processAiContent_obj,
    Json.getKey]
  rw [lookupKey_normListPure_ne _ _ _ (by decide),
    lookupKey_normListPure_ne _ _ _ (by decide)]
  exact lookupKey_fillFrom_mem required_fields kvs "risks" (by decide) hc

/-- Witness for C4 at concrete inputs. -/
theorem claim_C4_witness :
    (lookupKey (fillFrom required_fields []) "risks" =
      some (.str (placeholder "risks"))) ∧
    ((generate_financial_report "k" sampleFacts (.parsed (.obj []))).getKey
      "risks" = some (.str "Analysis for Risks not available.")) :=
  ⟨(claim_C4_placeholder_filling []).2.1 "risks" (by decide) rfl,
   (claim_C4_placeholder_filling []).2.2.1 "k" sampleFacts (by decide) rfl⟩

/-- Claim C5: a provider response that parses as a JSON array is a shape
failure — the membership tests, item assignments or `.get` calls on the
list all raise, the handler catches, and the result is exactly the
fallback report, for every array and every fact set. -/
theorem claim_C5_array_response_falls_back (key : String)
    (d : FinancialFacts) (xs : List Json) :
    generate_financial_report key d (.parsed (.arr xs)) =
      generate_demo_report d := by
  by_cases hk : key = "demo_key"
  · simp [generate_financial_report, reportTryBody, hk]
  · obtain ⟨e, he⟩ := processAiContent_nonObj (.arr xs) rfl
    simp [generate_financial_report, reportTryBody, hk, he]

/-- Claim C8: the margin computation of `generate_demo_report` is
guarded, so the Python division never raises and evaluates to the
guarded value for every input; with zero revenue the margin is 0 and
the generated text interpolates a margin of exactly 0. -/
theorem claim_C8_zero_revenue_margin (d : FinancialFacts) :
    profit_margin_eval d = .ok (demoMargin d) ∧
    (d.revenue = 0 → demoMargin d = 0 ∧
      generate_demo_report d = demoContent d 0) := by
  constructor
  · unfold profit_margin_eval demoMargin pyDiv
    by_cases h : 0 < d.revenue
    · have hne : ¬ d.revenue = 0 := ne_of_gt h
      simp [h, hne, Bind.bind, Except.bind, Pure.pure, Except.pure]
    · simp [h, Pure.pure, Except.pure]
  · intro h0
    have hlt : ¬ 0 < d.revenue := by rw [h0]; exact lt_irrefl 0
    exact ⟨by simp [demoMargin, hlt],
      by simp [generate_demo_report, demoMargin, hlt]⟩

/-- Witness for C8 at a concrete zero-revenue input. -/
theorem claim_C8_witness :
    profit_margin_eval zeroRevenueFacts = .ok (demoMargin zeroRevenueFacts) ∧
    (demoMargin zeroRevenueFacts = 0 ∧
      generate_demo_report zeroRevenueFacts = demoContent zeroRevenueFacts 0) :=
  ⟨(claim_C8_zero_revenue_margin zeroRevenueFacts).1,
   (claim_C8_zero_revenue_margin zeroRevenueFacts).2 rfl⟩

/-- Claim C9: for every input, the fallback report carries the same
fixed, hardcoded 3-element `top_risks` and `top_recommendations`
sequences, independent of the facts supplied. -/
theorem claim_C9_demo_lists_fixed (d : FinancialFacts) :
    (generate_demo_report d).getKey "top_risks" = some (.arr [
      .str "Market volatility and economic uncertainty",
      .str "Competitive pressure and market share erosion",
      .str "Operational inefficiencies and cost escalation"]) ∧
    (generate_demo_report d).getKey "top_recommendations" = some (.arr [
      .str "Diversify revenue streams and market presence",
      .str "Implement advanced analytics for decision making",
      .str "Strengthen operational risk management processes"]) :=
  ⟨rfl, rfl⟩

/-- Claim C10: placeholder filling runs before list normalization, so a
provider dict omitting `top_risks` (or `top_recommendations`) ends with
the placeholder string wrapped into a one-element sequence. -/
theorem claim_C10_placeholder_then_wrap (key : String) (d : FinancialFacts)
    (kvs : List (String × Json)) (hk : key ≠ "demo_key") :
    (containsKey kvs "top_risks" = false →
      (generate_financial_report key d (.parsed (.obj kvs))).getKey
        "top_risks" =
        some (.arr [.str "Analysis for Top Risks not available."])) ∧
    (containsKey kvs "top_recommendations" = false →
      (generate_financial_report key d (.parsed (.obj kvs))).getKey
        "top_recommendations" =
        some (.arr [.str "Analysis for Top Recommendations not available."])) := by
  constructor
  · intro hc
    simp [generate_financial_report, reportTryBody, hk, processAiContent_obj,
      Json.getKey]
    rw [lookupKey_normListPure_ne _ _ _ (by decide)]
    exact lookupKey_normListPure_of_str _ _ _
      (lookupKey_fillFrom_mem required_fields kvs "top_risks" (by decide) hc)
  · intro hc
    simp [generate_financial_report, reportTryBody, hk, processAiContent_obj,
      Json.getKey]
    have h2 : lookupKey (normListPure (fillFrom required_fields kvs)
        "top_risks") "top_recommendations" =
        some (.str (placeholder "top_recommendations")) := by
      rw [lookupKey_normListPure_ne _ _ _ (by decide)]
      exact lookupKey_fillFrom_mem required_fields kvs "top_recommendations"
        (by decide) hc
    exact lookupKey_normListPure_of_str _ _ _ h2

/-- Witness for C10 at concrete inputs. -/
theorem claim_C10_witness :
    ((generate_financial_report "k" sampleFacts (.parsed (.obj []))).getKey
      "top_risks" =
      some (.arr [.str "Analysis for Top Risks not available."])) ∧
    ((generate_financial_report "k" sampleFacts (.parsed (.obj []))).getKey
      "top_recommendations" =
      some (.arr [.str "Analysis for Top Recommendations not available."])) :=
  ⟨(claim_C10_placeholder_then_wrap "k" sampleFacts [] (by decide)).1 rfl,
   (claim_C10_placeholder_then_wrap "k" sampleFacts [] (by decide)).2 rfl⟩

/-- Claim C6, counterexample: a mapping containing `revenue` but not
`profit` makes the Financial Overview section subscript the absent
`profit` key and raise `KeyError`, so `generate_pdf_report` does raise
due to an absent key. -/
theorem claim_C6_counterexample :
    generate_pdf_report_content "June 1, 2025" [("revenue", Json.num 100)] =
      .error PyError.keyError := rfl

/-- Claim C6, amended: no section raises because its gating key is
absent — every gated section is silently skipped when its gating key is
missing, and with all gating keys absent the whole build succeeds with
just the title and metadata blocks; but the Financial Overview section,
gated only on `revenue`, additionally subscripts `profit` and
`growth_percentage` and raises `KeyError` when `revenue` is present and
either of those is absent. -/
theorem claim_C6_gating_keys (today : String) (rd : RData) :
    (containsKey rd "revenue" = false →
      financialOverviewSection rd = .ok []) ∧
    (containsKey rd "executive_summary" = false →
      executiveSummarySection rd = .ok []) ∧
    (containsKey rd "key_trends" = false → keyTrendsSection rd = .ok []) ∧
    (containsKey rd "top_risks" = false → topRisksSection rd = .ok []) ∧
    (containsKey rd "risks" = false → riskAssessmentSection rd = .ok []) ∧
    (containsKey rd "top_recommendations" = false →
      topRecommendationsSection rd = .ok []) ∧
    (containsKey rd "recommendations" = false →
      strategicRecommendationsSection rd = .ok []) ∧
    ((containsKey rd "revenue" = false ∧
      containsKey rd "executive_summary" = false ∧
      containsKey rd "key_trends" = false ∧
      containsKey rd "top_risks" = false ∧
      containsKey rd "risks" = false ∧
      containsKey rd "top_recommendations" = false ∧
      containsKey rd "recommendations" = false) →
      generate_pdf_report_content today rd =
        .ok (titleSection rd ++ metadataSection today rd)) ∧
    (∀ (r p : Rat) (g : Json), lookupKey rd "revenue" = some (.num r) →
      lookupKey rd "profit" = some (.num p) →
      lookupKey rd "growth_percentage" = some g →
      financialOverviewSection rd = .ok [.heading "Financial Overview",
        .para ("<b>Revenue:</b> ₹" ++ formatComma2 r),
        .para ("<b>Profit:</b> ₹" ++ formatComma2 p),
        .para ("<b>Growth:</b> " ++ g.pyStr ++ "%"), .spacer 20]) := by
  refine ⟨?_, ?_, ?_, ?_, ?_, ?_, ?_, ?_, ?_⟩
  · intro h; simp [financialOverviewSection, h, Pure.pure, Except.pure]
  · intro h; simp [executiveSummarySection, h, Pure.pure, Except.pure]
  · intro h; simp [keyTrendsSection, h, Pure.pure, Except.pure]
  · intro h; simp [topRisksSection, h, Pure.pure, Except.pure]
  · intro h; simp [riskAssessmentSection, h, Pure.pure, Except.pure]
  · intro h; simp [topRecommendationsSection, h, Pure.pure, Except.pure]
  · intro h; simp [strategicRecommendationsSection, h, Pure.pure, Except.pure]
  · rintro ⟨h1, h2, h3, h4, h5, h6, h7⟩
    simp [generate_pdf_report_content, financialOverviewSection,
      executiveSummarySection, keyTrendsSection, topRisksSection,
      riskAssessmentSection, topRecommendationsSection,
      strategicRecommendationsSection, h1, h2, h3, h4, h5, h6, h7,
      Bind.bind, Except.bind, Pure.pure, Except.pure]
  · intro r p g hr hp hg
    have hc : containsKey rd "revenue" = true :=
      lookupKey_some_contains rd "revenue" _ hr
    simp [financialOverviewSection, hc, rget, hr, hp, hg, pyFormatComma2,
      Bind.bind, Except.bind, Pure.pure, Except.pure]

/-- Witness for the amended C6 at concrete inputs. -/
theorem claim_C6_witness :
    (generate_pdf_report_content "June 1, 2025" [] =
      .ok (titleSection [] ++ metadataSection "June 1, 2025" [])) ∧
    (financialOverviewSection [("revenue", Json.num 100),
        ("profit", Json.num 10), ("growth_percentage", Json.num 5)] =
      .ok [.heading "Financial Overview",
        .para ("<b>Revenue:</b> ₹" ++ formatComma2 100),
        .para ("<b>Profit:</b> ₹" ++ formatComma2 10),
        .para ("<b>Growth:</b> " ++ (Json.num 5).pyStr ++ "%"),
        .spacer 20]) :=
  ⟨(claim_C6_gating_keys "June 1, 2025" []).2.2.2.2.2.2.2.1
     ⟨rfl, rfl, rfl, rfl, rfl, rfl, rfl⟩,
   (claim_C6_gating_keys "June 1, 2025" _).2.2.2.2.2.2.2.2 100 10
     (Json.num 5) rfl rfl rfl⟩

/-- Claim C7: the Top 3 Critical Risks section is skipped when
`top_risks` is absent or present-but-falsy; a non-empty list is emitted
as a 1-indexed numbered list truncated to the first three entries (for
a 4-element list, exactly entries 1..3); a non-empty scalar string is
emitted as a single paragraph. -/
theorem claim_C7_top_risks_section (rd : RData) :
    (lookupKey rd "top_risks" = none → topRisksSection rd = .ok []) ∧
    (∀ v, lookupKey rd "top_risks" = some v → pyTruthy v = false →
      topRisksSection rd = .ok []) ∧
    (∀ xs, lookupKey rd "top_risks" = some (.arr xs) → xs ≠ [] →
      topRisksSection rd = .ok ([.heading "Top 3 Critical Risks"] ++
        numberedItems xs ++ [.spacer 15])) ∧
    (∀ s, lookupKey rd "top_risks" = some (.str s) → s ≠ "" →
      topRisksSection rd =
        .ok [.heading "Top 3 Critical Risks", .para s, .spacer 15]) ∧
    numberedItems [.str "A", .str "B", .str "C", .str "D"] =
      [.listItem "1. A", .listItem "2. B", .listItem "3. C"] := by
  refine ⟨?_, ?_, ?_, ?_, rfl⟩
  · intro h
    by_cases hc : containsKey rd "top_risks"
    · have := lookupKey_isSome_of_contains rd "top_risks" hc
      rw [h] at this
      simp at this
    · simp [topRisksSection, hc, Pure.pure, Except.pure]
  · intro v h htr
    have hc : containsKey rd "top_risks" = true :=
      lookupKey_some_contains rd "top_risks" v h
    simp [topRisksSection, hc, rget, h, htr, Bind.bind, Except.bind,
      Pure.pure, Except.pure]
  · intro xs h hne
    have hc : containsKey rd "top_risks" = true :=
      lookupKey_some_contains rd "top_risks" _ h
    have htr : pyTruthy (.arr xs) = true := by simp [pyTruthy, hne]
    simp [topRisksSection, hc, rget, h, htr, Bind.bind, Except.bind,
      Pure.pure, Except.pure]
  · intro s h hne
    have hc : containsKey rd "top_risks" = true :=
      lookupKey_some_contains rd "top_risks" _ h
    have htr : pyTruthy (.str s) = true := by simp [pyTruthy, hne]
    simp [topRisksSection, hc, rget, h, htr, Json.pyStr, Bind.bind,
      Except.bind, Pure.pure, Except.pure]

/-- Witness for C7 at concrete inputs: absent key, empty list,
4-element list, and scalar string. -/
theorem claim_C7_witness :
    (topRisksSection [] = .ok []) ∧
    (topRisksSection [("top_risks", Json.arr [])] = .ok []) ∧
    (topRisksSection
        [("top_risks", Json.arr [.str "A", .str "B", .str "C", .str "D"])] =
      .ok ([.heading "Top 3 Critical Risks"] ++
        numberedItems [.str "A", .str "B", .str "C", .str "D"] ++
        [.spacer 15])) ∧
    (topRisksSection [("top_risks", Json.str "Inflation")] =
      .ok [.heading "Top 3 Critical Risks", .para "Inflation", .spacer 15]) :=
  ⟨(claim_C7_top_risks_section []).1 rfl,
   (claim_C7_top_risks_section [("top_risks", Json.arr [])]).2.1
     (Json.arr []) rfl rfl,
   (claim_C7_top_risks_section
       [("top_risks", Json.arr [.str "A", .str "B", .str "C", .str "D"])]).2.2.1
     [.str "A", .str "B", .str "C", .str "D"] rfl (List.cons_ne_nil _ _),
   (claim_C7_top_risks_section [("top_risks", Json.str "Inflation")]).2.2.2.1
     "Inflation" rfl (by decide)⟩
